import Mathlib

/-!
Shallow embedding of `src/urh/controller/dialogs/SimulatorDialog.py` (class
`SimulatorDialog`).  The dialog observes an opaque simulation engine
(`Simulator`) through polling and renders its transcript, log and device
message streams into text views.  We model the dialog state that the verified
claims talk about: the three text edits, the two progress labels, the
transcript cursor, the polling timer, and the parts of the simulator the
dialog reads.  Purely graphical effects (icons, scene previews, tab widgets
beyond their enabled flag) are represented only where a claim mentions them.
-/

namespace SimulatorDialog

/-- Python whitespace characters stripped by `str.rstrip()` (ASCII range). -/
def isPythonSpace (c : Char) : Bool :=
  c = ' ' || c = '\t' || c = '\n' || c = '\x0b' || c = '\x0c' || c = '\r'

/-- Python `str.rstrip()`: remove all trailing whitespace characters. -/
def rstrip (s : String) : String :=
  String.mk ((s.data.reverse.dropWhile isPythonSpace).reverse)

/-- One element of `simulator.transcript`: the tuple
`(source, destination, msg, msg_index)`.  The dialog only reads
`source.shortname`, `destination.shortname`, `msg.plain_bits_str`,
`msg.plain_hex_str` and `msg_index`, so those projections are the fields. -/
structure TranscriptEntry where
  source_shortname : String
  destination_shortname : String
  plain_bits_str : String
  plain_hex_str : String
  msg_index : Nat
deriving DecidableEq, Repr

/-- `SimulatorDialog.TRANSCRIPT_FORMAT = "{0} ({1}->{2}): {3}"` applied to its
four arguments. -/
def TRANSCRIPT_FORMAT (msg_index : Nat) (source destination data : String) : String :=
  toString msg_index ++ " (" ++ source ++ "->" ++ destination ++ "): " ++ data

/-- The line rendered for one transcript entry: `data` is the bit string when
the bit radio button is checked, the hex string otherwise (lines 156-157 and
191-192 of the source). -/
def render_entry (bit_radio_checked : Bool) (e : TranscriptEntry) : String :=
  TRANSCRIPT_FORMAT e.msg_index e.source_shortname e.destination_shortname
    (if bit_radio_checked then e.plain_bits_str else e.plain_hex_str)

/-- The simulator state the dialog reads: `transcript`, `is_simulating`,
`current_repeat`, `current_item.index()`, and the two drainable message
streams returned by `device_messages()` and `read_log_messages()`. -/
structure SimulatorState where
  transcript : List TranscriptEntry
  is_simulating : Bool
  current_repeat : Nat
  current_item_index : String
  device_messages : List String
  log_messages : List String
deriving DecidableEq, Repr

/-- The dialog widgets the claims mention.  Text edits are lists of appended
lines, labels are their displayed strings. -/
structure UiState where
  textEditDevices : List String
  textEditSimulation : List String
  textEditTranscript : List String
  lblCurrentRepeatValue : String
  lblCurrentItemValue : String
  radioButtonTranscriptBit : Bool
  btnStartStopText : String
  tabsEnabled : Bool
  checkBoxCaptureFullRX_enabled : Bool
deriving DecidableEq, Repr

/-- Dialog state: widgets, the observed simulator, the transcript cursor
`current_transcript_index` and the polling `QTimer`. -/
structure DialogState where
  ui : UiState
  simulator : SimulatorState
  current_transcript_index : Nat
  timer_active : Bool
  timer_interval : Option Nat
deriving DecidableEq, Repr

/-- `self.update_interval = 25` (line 51). -/
def update_interval : Nat := 25

/-- `update_view` (lines 148-164): append the non-empty rstripped device and
log messages, append the rendering of every transcript entry from
`current_transcript_index` on, advance the cursor to the transcript length,
and set the repeat/item labels from the engine state.  The two message
streams are drained by reading them. -/
def update_view (s : DialogState) : DialogState :=
  let device_lines := (s.simulator.device_messages.map rstrip).filter (fun l => !l.isEmpty)
  let log_lines := (s.simulator.log_messages.map rstrip).filter (fun l => !l.isEmpty)
  let new_entries := s.simulator.transcript.drop s.current_transcript_index
  let transcript_lines := new_entries.map (render_entry s.ui.radioButtonTranscriptBit)
  { s with
    ui := { s.ui with
      textEditDevices := s.ui.textEditDevices ++ device_lines
      textEditSimulation := s.ui.textEditSimulation ++ log_lines
      textEditTranscript := s.ui.textEditTranscript ++ transcript_lines
      lblCurrentRepeatValue :=
        if s.simulator.is_simulating then toString (s.simulator.current_repeat + 1) else "-"
      lblCurrentItemValue :=
        if s.simulator.is_simulating then s.simulator.current_item_index else "-" }
    simulator := { s.simulator with device_messages := [], log_messages := [] }
    current_transcript_index := s.simulator.transcript.length }

/-- `update_transcript_view` (lines 188-193): rebuild the whole transcript
view from scratch, rendering every entry with the current radio state, and
`setText` the joined lines. -/
def update_transcript_view (s : DialogState) : DialogState :=
  let transcript := s.simulator.transcript.map (render_entry s.ui.radioButtonTranscriptBit)
  { s with ui := { s.ui with textEditTranscript := transcript } }

/-- The plain text of the transcript view as exported by
`on_btn_save_transcript_clicked`: the lines joined by newlines, matching the
source's `"\n".join(transcript)`. -/
def transcript_export_text (s : DialogState) : String :=
  String.intercalate "\n" s.ui.textEditTranscript

/-- `reset` (lines 175-181): clear the three text edits, zero the transcript
cursor and blank both labels. -/
def reset (s : DialogState) : DialogState :=
  { s with
    ui := { s.ui with
      textEditDevices := []
      textEditSimulation := []
      textEditTranscript := []
      lblCurrentRepeatValue := "-"
      lblCurrentItemValue := "-" }
    current_transcript_index := 0 }

/-- `on_simulation_started` (lines 208-235): disable the settings tabs and
the capture checkbox, `reset()`, start the timer at `update_interval`, and
switch the start/stop button to Stop.  The RX-preview scene setup is
graphics-only and not modeled. -/
def on_simulation_started (s : DialogState) : DialogState :=
  let s := { s with ui := { s.ui with tabsEnabled := false, checkBoxCaptureFullRX_enabled := false } }
  let s := reset s
  { s with
    timer_active := true
    timer_interval := some update_interval
    ui := { s.ui with btnStartStopText := "Stop" } }

/-- `on_simulation_stopped` (lines 237-245): re-enable the tabs, stop the
timer, perform one final `update_view()`, switch the button back to Start and
re-enable the capture checkbox. -/
def on_simulation_stopped (s : DialogState) : DialogState :=
  let s := { s with ui := { s.ui with tabsEnabled := true }, timer_active := false }
  let s := update_view s
  { s with ui := { s.ui with btnStartStopText := "Start", checkBoxCaptureFullRX_enabled := true } }

/-- One observer poll: install the simulator snapshot the dialog would see
and run `update_view`.  Used to reason about a whole run's sequence of
`update_view` calls. -/
def observe (s : DialogState) (sim : SimulatorState) : DialogState :=
  update_view { s with simulator := sim }

/-- Fold a list of successive simulator snapshots through `observe`. -/
def observe_all (s : DialogState) (sims : List SimulatorState) : DialogState :=
  sims.foldl observe s

/-- The steps of `closeEvent` (lines 195-206), in source order. -/
inductive CloseStep
  | emit_editing_finished_signals
  | rx_emit_device_parameters_changed
  | tx_emit_device_parameters_changed
  | emit_sniff_parameters_changed
  | timer_stop
  | simulator_stop
  | sleep_ms (milliseconds : Nat)
  | simulator_cleanup
  | super_closeEvent
deriving DecidableEq, Repr

/-- `closeEvent` (lines 195-206) as the ordered list of calls it makes:
the editing-finished and parameter-changed emissions, `self.timer.stop()`,
`self.simulator.stop()`, `time.sleep(0.1)` (100 ms), and
`self.simulator.cleanup()` before deferring to the superclass. -/
def closeEvent_steps : List CloseStep :=
  [CloseStep.emit_editing_finished_signals,
   CloseStep.rx_emit_device_parameters_changed,
   CloseStep.tx_emit_device_parameters_changed,
   CloseStep.emit_sniff_parameters_changed,
   CloseStep.timer_stop,
   CloseStep.simulator_stop,
   CloseStep.sleep_ms 100,
   CloseStep.simulator_cleanup,
   CloseStep.super_closeEvent]

/-- The steps of `on_simulation_stopped` (lines 237-245), in source order. -/
inductive StopHandlerStep
  | enable_tabs
  | timer_stop
  | update_view_refresh
  | set_button_to_start
  | enable_capture_checkbox
deriving DecidableEq, Repr

/-- `on_simulation_stopped` as the ordered list of calls it makes. -/
def on_simulation_stopped_steps : List StopHandlerStep :=
  [StopHandlerStep.enable_tabs,
   StopHandlerStep.timer_stop,
   StopHandlerStep.update_view_refresh,
   StopHandlerStep.set_button_to_start,
   StopHandlerStep.enable_capture_checkbox]

/-- The simulator/widget calls `on_btn_start_stop_clicked` can make. -/
inductive SimCall
  | rx_emit_editing_finished
  | tx_emit_editing_finished
  | sniff_emit_editing_finished
  | set_rcv_current_index_zero
  | set_resume_on_full_receive_buffer (value : Bool)
  | simulator_start
  | simulator_stop
deriving DecidableEq, Repr

/-- `on_btn_start_stop_clicked` (lines 289-301) as the list of calls it
makes, given the polled `simulator.is_simulating` flag and the state of the
capture-full-RX checkbox. -/
def on_btn_start_stop_clicked (is_simulating : Bool)
    (captureFullRX_checked : Bool) : List SimCall :=
  if is_simulating then
    [SimCall.simulator_stop]
  else
    [SimCall.rx_emit_editing_finished,
     SimCall.tx_emit_editing_finished,
     SimCall.sniff_emit_editing_finished,
     SimCall.set_rcv_current_index_zero,
     SimCall.set_resume_on_full_receive_buffer (!captureFullRX_checked),
     SimCall.simulator_start]

/-- An item of the simulator scene: the `logging_active` flag of its model
item, and whether the graphics item is currently selected. -/
structure SceneItem where
  logging_active : Bool
  selected : Bool
deriving DecidableEq, Repr

/-- The scene state `update_buttons` reads: its selectable items. -/
structure SimulatorSceneState where
  items : List SceneItem
deriving DecidableEq, Repr

/-- `self.simulator_scene.selectable_items()`. -/
def selectable_items (sc : SimulatorSceneState) : List SceneItem :=
  sc.items

/-- `self.simulator_scene.selectedItems()`: the currently selected items. -/
def selectedItems (sc : SimulatorSceneState) : List SceneItem :=
  sc.items.filter (fun it => it.selected)

/-- The enabled flags set by `update_buttons`. -/
structure LogButtonStates where
  btnToggleLog : Bool
  btnLogAll : Bool
  btnLogNone : Bool
deriving DecidableEq, Repr

/-- `update_buttons` (lines 140-146): `btnToggleLog` is enabled iff
`len(selectedItems())` is non-zero, `btnLogAll` iff not all selectable items
have `logging_active`, `btnLogNone` iff some selectable item has it. -/
def update_buttons (sc : SimulatorSceneState) : LogButtonStates :=
  let selectable := selectable_items sc
  let all_items_selected := selectable.all (fun it => it.logging_active)
  let any_item_selected := selectable.any (fun it => it.logging_active)
  { btnToggleLog := decide ((selectedItems sc).length ≠ 0)
    btnLogAll := !all_items_selected
    btnLogNone := any_item_selected }

/-- Modelled from the spec: `SimulatorScene.log_all_items`, called by
`on_btn_log_all_clicked` / `on_btn_log_none_clicked` (lines 247-253), is not
under src/.  Per the Program Model API (`logAll()`, `logNone()`) it sets the
per-item `logging_active` flag of every item to the given value. -/
def log_all_items (value : Bool) (sc : SimulatorSceneState) : SimulatorSceneState :=
  { items := sc.items.map (fun it => { it with logging_active := value }) }

/-- Modelled from the spec: `SimulatorScene.log_toggle_selected_items`,
called by `on_btn_toggle_clicked` (lines 255-257), is not under src/.  Per
the Program Model API (`toggleLogging(selected)`) it flips `logging_active`
for exactly the selected items. -/
def log_toggle_selected_items (sc : SimulatorSceneState) : SimulatorSceneState :=
  { items := sc.items.map (fun it =>
      if it.selected then { it with logging_active := !it.logging_active } else it) }

/-- `on_btn_log_all_clicked` (lines 247-249). -/
def on_btn_log_all_clicked (sc : SimulatorSceneState) : SimulatorSceneState :=
  log_all_items true sc

/-- `on_btn_log_none_clicked` (lines 251-253). -/
def on_btn_log_none_clicked (sc : SimulatorSceneState) : SimulatorSceneState :=
  log_all_items false sc

/-- `on_btn_toggle_clicked` (lines 255-257). -/
def on_btn_toggle_clicked (sc : SimulatorSceneState) : SimulatorSceneState :=
  log_toggle_selected_items sc

/-- The sender as the dialog sees it: its `device_name`. -/
structure SenderState where
  device_name : String
deriving DecidableEq, Repr

/-- The state touched by `on_selected_tx_device_changed`: the sender and the
TX device combo box text, plus the error popup (if any) raised by
`Errors.generic_error`. -/
structure TxDeviceState where
  sender : SenderState
  cbDevice_text : String
  reported_error : Option String
deriving DecidableEq, Repr

/-- `on_selected_tx_device_changed` (lines 314-323).  Assigning
`sender.device_name` runs opaque device code that may raise; we model it as
a function `set_device_name` returning either the updated sender or the
exception message, leaving the sender unchanged when it raises.  On success
the new sender is installed; on an exception the combo box is set back to
the old `sender.device_name` and the error is reported. -/
def on_selected_tx_device_changed
    (set_device_name : SenderState → String → Except String SenderState)
    (s : TxDeviceState) : TxDeviceState :=
  let old_name := s.sender.device_name
  let dev_name := s.cbDevice_text
  match set_device_name s.sender dev_name with
  | Except.ok newSender => { s with sender := newSender }
  | Except.error e =>
      { s with cbDevice_text := old_name, reported_error := some e }

/-- The receive device as `on_btn_save_rx_clicked` sees it: `data` is
`some` samples when it is a numpy array and `none` otherwise, and
`current_index` is the write cursor into that buffer. -/
structure RxDevice (α : Type) where
  data : Option (List α)
  current_index : Nat
deriving Repr

/-- `on_btn_save_rx_clicked` (lines 361-367): when the device data is an
ndarray, ask for a file name; if one was chosen (non-empty), write
`data[:current_index]` to it.  The result is the file written with its
contents, or `none` when nothing is written.  `filename` is what the save
dialog would return (`none` when cancelled). -/
def on_btn_save_rx_clicked {α : Type} (rx_device : RxDevice α)
    (filename : Option String) : Option (String × List α) :=
  match rx_device.data with
  | some arr =>
      match filename with
      | some f =>
          if f.isEmpty then none
          else some (f, arr.take rx_device.current_index)
      | none => none
  | none => none

/-! Concrete states used to witness the claim theorems below. -/

/-- A concrete transcript entry. -/
def sampleEntry : TranscriptEntry :=
  { source_shortname := "A", destination_shortname := "B",
    plain_bits_str := "1010", plain_hex_str := "a", msg_index := 0 }

/-- A second concrete transcript entry. -/
def sampleEntry2 : TranscriptEntry :=
  { source_shortname := "B", destination_shortname := "A",
    plain_bits_str := "1100", plain_hex_str := "c", msg_index := 1 }

/-- A concrete simulator state mid-run. -/
def sampleSimulator : SimulatorState :=
  { transcript := [sampleEntry], is_simulating := true, current_repeat := 0,
    current_item_index := "1.2", device_messages := ["dev msg ", "  "],
    log_messages := ["log msg", ""] }

/-- A concrete dialog state just opened, observing `sampleSimulator`. -/
def sampleDialog : DialogState :=
  { ui := { textEditDevices := [], textEditSimulation := [], textEditTranscript := [],
            lblCurrentRepeatValue := "-", lblCurrentItemValue := "-",
            radioButtonTranscriptBit := true, btnStartStopText := "Start",
            tabsEnabled := true, checkBoxCaptureFullRX_enabled := true },
    simulator := sampleSimulator, current_transcript_index := 0,
    timer_active := false, timer_interval := none }

/-- `sampleSimulator` after producing a second transcript entry. -/
def sampleSimulator2 : SimulatorState :=
  { sampleSimulator with
    transcript := [sampleEntry, sampleEntry2]
    device_messages := []
    log_messages := [] }

/-- C1: Every transcript line the dialog renders or exports has the exact
format `{sequence_index} ({source}->{destination}): {data}`, where `{data}`
is the bit-string rendering when the bit radio button is checked and the
hex-string rendering otherwise; one full rebuild (`update_transcript_view`)
renders every line of the export with that same single rendering, and
`update_view`'s appended lines use the same format. -/
theorem transcript_line_format_c1 (s : DialogState) :
    (update_transcript_view s).ui.textEditTranscript
      = s.simulator.transcript.map (fun e =>
          TRANSCRIPT_FORMAT e.msg_index e.source_shortname e.destination_shortname
            (if s.ui.radioButtonTranscriptBit then e.plain_bits_str else e.plain_hex_str)) ∧
    transcript_export_text (update_transcript_view s)
      = String.intercalate "\n"
          (s.simulator.transcript.map (render_entry s.ui.radioButtonTranscriptBit)) ∧
    (update_view s).ui.textEditTranscript
      = s.ui.textEditTranscript ++
        (s.simulator.transcript.drop s.current_transcript_index).map (fun e =>
          TRANSCRIPT_FORMAT e.msg_index e.source_shortname e.destination_shortname
            (if s.ui.radioButtonTranscriptBit then e.plain_bits_str else e.plain_hex_str)) :=
  ⟨rfl, rfl, rfl⟩

/-- C3: A start/stop button click calls only `stop()` when the simulator
reports `is_simulating`, and `start()` is reached only when `is_simulating`
is false, so the dialog never starts an engine that is already running. -/
theorem start_stop_guard_c3 (b c : Bool) :
    (b = true → on_btn_start_stop_clicked b c = [SimCall.simulator_stop]) ∧
    (SimCall.simulator_start ∈ on_btn_start_stop_clicked b c → b = false) ∧
    (b = false → SimCall.simulator_start ∈ on_btn_start_stop_clicked b c ∧
        SimCall.simulator_stop ∉ on_btn_start_stop_clicked b c) := by
  cases b <;> cases c <;> simp [on_btn_start_stop_clicked]

/-- Witness for C3 at concrete button states. -/
theorem start_stop_guard_c3_witness :
    on_btn_start_stop_clicked true false = [SimCall.simulator_stop] ∧
    SimCall.simulator_start ∈ on_btn_start_stop_clicked false false ∧
    SimCall.simulator_stop ∉ on_btn_start_stop_clicked false false :=
  ⟨(start_stop_guard_c3 true false).1 rfl,
   ((start_stop_guard_c3 false false).2.2 rfl).1,
   ((start_stop_guard_c3 false false).2.2 rfl).2⟩

/-- C4: In `closeEvent`, `simulator.stop()` occurs strictly before
`simulator.cleanup()`, the single step between them is the fixed 100 ms
sleep, and each of the two calls happens exactly once, so `cleanup()` is
never invoked before a `stop()` request was issued. -/
theorem close_stop_before_cleanup_c4 :
    closeEvent_steps.indexOf CloseStep.simulator_stop <
        closeEvent_steps.indexOf CloseStep.simulator_cleanup ∧
    closeEvent_steps.get? (closeEvent_steps.indexOf CloseStep.simulator_stop + 1)
      = some (CloseStep.sleep_ms 100) ∧
    closeEvent_steps.get? (closeEvent_steps.indexOf CloseStep.simulator_stop + 2)
      = some CloseStep.simulator_cleanup ∧
    closeEvent_steps.count CloseStep.simulator_stop = 1 ∧
    closeEvent_steps.count CloseStep.simulator_cleanup = 1 := by
  decide

/-- C5: After a view refresh, the current-repeat label shows
`current_repeat + 1` and the current-item label the current item's index
while `is_simulating` holds, and both labels show "-" otherwise. -/
theorem progress_labels_c5 (s : DialogState) :
    (update_view s).ui.lblCurrentRepeatValue
      = (if s.simulator.is_simulating then toString (s.simulator.current_repeat + 1) else "-") ∧
    (update_view s).ui.lblCurrentItemValue
      = (if s.simulator.is_simulating then s.simulator.current_item_index else "-") :=
  ⟨rfl, rfl⟩

/-- C6: The polling interval is the fixed 25 ms; the simulation-started
handler starts the timer at that interval, the simulation-stopped handler
stops it, and the stopped handler performs exactly one final full view
refresh after stopping the timer, which renders every transcript entry not
yet rendered. -/
theorem polling_timer_c6 :
    update_interval = 25 ∧
    (∀ s : DialogState, (on_simulation_started s).timer_active = true ∧
        (on_simulation_started s).timer_interval = some 25) ∧
    (∀ s : DialogState, (on_simulation_stopped s).timer_active = false ∧
        (on_simulation_stopped s).current_transcript_index
          = s.simulator.transcript.length ∧
        (on_simulation_stopped s).ui.textEditTranscript
          = s.ui.textEditTranscript ++
            (s.simulator.transcript.drop s.current_transcript_index).map
              (render_entry s.ui.radioButtonTranscriptBit)) ∧
    on_simulation_stopped_steps.indexOf StopHandlerStep.timer_stop <
        on_simulation_stopped_steps.indexOf StopHandlerStep.update_view_refresh ∧
    on_simulation_stopped_steps.count StopHandlerStep.update_view_refresh = 1 :=
  ⟨rfl, fun _ => ⟨rfl, rfl⟩, fun _ => ⟨rfl, rfl, rfl⟩, by decide, by decide⟩

/-- `update_view` leaves the transcript radio button unchanged, so one run
renders every line with the same radio state. -/
theorem update_view_radio (s : DialogState) :
    (update_view s).ui.radioButtonTranscriptBit = s.ui.radioButtonTranscriptBit :=
  rfl

/-- Invariant of a polling run: if the view currently shows exactly the
rendering of a transcript prefix `T` and the cursor sits at `T.length`, then
after any chain of append-only simulator snapshots the view shows exactly
the rendering of the last snapshot's transcript, and the cursor sits at its
length — so every entry was appended exactly once. -/
theorem observe_all_view (b : Bool) :
    ∀ (sims : List SimulatorState) (s : DialogState) (T : List TranscriptEntry),
      s.ui.radioButtonTranscriptBit = b →
      s.ui.textEditTranscript = T.map (render_entry b) →
      s.current_transcript_index = T.length →
      List.Chain (fun p n => ∃ d, n = p ++ d) T
        (sims.map (fun sim => sim.transcript)) →
      (observe_all s sims).ui.textEditTranscript
        = ((sims.map (fun sim => sim.transcript)).getLastD T).map (render_entry b) ∧
      (observe_all s sims).current_transcript_index
        = ((sims.map (fun sim => sim.transcript)).getLastD T).length := by
  intro sims
  induction sims with
  | nil =>
      intro s T hb hv hi _
      exact ⟨hv, hi⟩
  | cons sim rest ih =>
      intro s T hb hv hi hchain
      rw [List.map_cons] at hchain
      cases hchain with
      | cons hstep hrest =>
        obtain ⟨d, hd⟩ := hstep
        have hnext_view : (observe s sim).ui.textEditTranscript
            = sim.transcript.map (render_entry b) := by
          show s.ui.textEditTranscript ++
              (sim.transcript.drop s.current_transcript_index).map
                (render_entry s.ui.radioButtonTranscriptBit)
            = sim.transcript.map (render_entry b)
          rw [hb, hv, hi, hd, List.drop_left, List.map_append]
        have hnext_idx : (observe s sim).current_transcript_index
            = sim.transcript.length := rfl
        have hnext_radio : (observe s sim).ui.radioButtonTranscriptBit = b := hb
        have := ih (observe s sim) sim.transcript hnext_radio hnext_view hnext_idx hrest
        rw [List.map_cons, List.getLastD_cons]
        exact this

/-- C2: The transcript cursor is reset to 0 when a run begins
(`on_simulation_started` clears the view and zeroes the cursor), each
`update_view` call appends exactly the entries at positions at or beyond
`current_transcript_index` and afterwards the cursor equals the transcript's
length; consequently, over any append-only run, every transcript entry is
appended to the view exactly once. -/
theorem transcript_appended_once_c2 :
    (∀ s : DialogState, (on_simulation_started s).current_transcript_index = 0 ∧
        (on_simulation_started s).ui.textEditTranscript = []) ∧
    (∀ s : DialogState,
        (update_view s).ui.textEditTranscript
          = s.ui.textEditTranscript ++
            (s.simulator.transcript.drop s.current_transcript_index).map
              (render_entry s.ui.radioButtonTranscriptBit) ∧
        (update_view s).current_transcript_index = s.simulator.transcript.length) ∧
    (∀ (s : DialogState) (sims : List SimulatorState),
        List.Chain (fun p n => ∃ d, n = p ++ d) []
          (sims.map (fun sim => sim.transcript)) →
        (observe_all (on_simulation_started s) sims).ui.textEditTranscript
          = ((sims.map (fun sim => sim.transcript)).getLastD []).map
              (render_entry s.ui.radioButtonTranscriptBit) ∧
        (observe_all (on_simulation_started s) sims).current_transcript_index
          = ((sims.map (fun sim => sim.transcript)).getLastD []).length) := by
  refine ⟨fun s => ⟨rfl, rfl⟩, fun s => ⟨rfl, rfl⟩, fun s sims hchain => ?_⟩
  exact observe_all_view s.ui.radioButtonTranscriptBit sims
    (on_simulation_started s) [] rfl rfl rfl hchain

/-- Witness for C2: one run with two observer polls of an append-only
transcript, the chain hypothesis discharged with explicit extensions. -/
theorem transcript_appended_once_c2_witness :
    (observe_all (on_simulation_started sampleDialog)
        [sampleSimulator, sampleSimulator2]).ui.textEditTranscript
      = (([sampleSimulator, sampleSimulator2].map
            (fun sim => sim.transcript)).getLastD []).map
          (render_entry sampleDialog.ui.radioButtonTranscriptBit) ∧
    (observe_all (on_simulation_started sampleDialog)
        [sampleSimulator, sampleSimulator2]).current_transcript_index
      = (([sampleSimulator, sampleSimulator2].map
            (fun sim => sim.transcript)).getLastD []).length :=
  transcript_appended_once_c2.2.2 sampleDialog [sampleSimulator, sampleSimulator2]
    (List.Chain.cons ⟨[sampleEntry], rfl⟩
      (List.Chain.cons ⟨[sampleEntry2], rfl⟩ List.Chain.nil))

/-- C7: After `update_buttons`, the log-all button is enabled iff some
selectable item has `logging_active` false, the log-none button iff some has
it true, and the toggle button iff the selection is non-empty; log-all and
log-none set every item's flag to true resp. false, and toggle flips the
flag of exactly the selected items. -/
theorem log_buttons_c7 (sc : SimulatorSceneState) :
    ((update_buttons sc).btnLogAll = true ↔
        ∃ it ∈ selectable_items sc, it.logging_active = false) ∧
    ((update_buttons sc).btnLogNone = true ↔
        ∃ it ∈ selectable_items sc, it.logging_active = true) ∧
    ((update_buttons sc).btnToggleLog = true ↔ selectedItems sc ≠ []) ∧
    (∀ it ∈ (on_btn_log_all_clicked sc).items, it.logging_active = true) ∧
    (∀ it ∈ (on_btn_log_none_clicked sc).items, it.logging_active = false) ∧
    List.Forall₂ (fun o n =>
        n.logging_active
          = (if o.selected then !o.logging_active else o.logging_active) ∧
        n.selected = o.selected)
      sc.items (on_btn_toggle_clicked sc).items := by
  refine ⟨?_, ?_, ?_, ?_, ?_, ?_⟩
  · simp [update_buttons, selectable_items]
  · simp [update_buttons, selectable_items, List.any_eq_true]
  · simp [update_buttons, List.length_eq_zero]
  · simp [on_btn_log_all_clicked, log_all_items]
  · simp [on_btn_log_none_clicked, log_all_items]
  · show List.Forall₂ _ sc.items (sc.items.map _)
    induction sc.items with
    | nil => exact List.Forall₂.nil
    | cons x xs ih =>
        refine List.Forall₂.cons ⟨?_, ?_⟩ ih <;>
          by_cases h : x.selected <;> simp [h]

/-- A concrete scene with one logged unselected item and one unlogged
selected item. -/
def sampleScene : SimulatorSceneState :=
  { items := [{ logging_active := true, selected := false },
              { logging_active := false, selected := true }] }

/-- Witness for C7 at a concrete scene. -/
theorem log_buttons_c7_witness :
    (update_buttons sampleScene).btnLogAll = true ∧
    (∀ it ∈ (on_btn_log_all_clicked sampleScene).items, it.logging_active = true) :=
  ⟨(log_buttons_c7 sampleScene).1.mpr
      ⟨{ logging_active := false, selected := true }, by decide, rfl⟩,
   (log_buttons_c7 sampleScene).2.2.2.1⟩

/-- C8: When assigning the new sender device name raises, the handler
restores the combo box to the previously assigned device name, leaves the
sender untouched, and reports the error. -/
theorem tx_device_change_atomic_c8
    (set_device_name : SenderState → String → Except String SenderState)
    (s : TxDeviceState) (e : String)
    (h : set_device_name s.sender s.cbDevice_text = Except.error e) :
    (on_selected_tx_device_changed set_device_name s).cbDevice_text
        = s.sender.device_name ∧
    (on_selected_tx_device_changed set_device_name s).sender = s.sender ∧
    (on_selected_tx_device_changed set_device_name s).reported_error = some e := by
  simp [on_selected_tx_device_changed, h]

/-- A concrete TX device state for the witness. -/
def sampleTxState : TxDeviceState :=
  { sender := { device_name := "HackRF" }, cbDevice_text := "USRP",
    reported_error := none }

/-- A device-name setter that always raises. -/
def failing_set_device_name : SenderState → String → Except String SenderState :=
  fun _ _ => Except.error "device unavailable"

/-- Witness for C8 with an always-raising setter. -/
theorem tx_device_change_atomic_c8_witness :
    (on_selected_tx_device_changed failing_set_device_name sampleTxState).cbDevice_text
        = "HackRF" ∧
    (on_selected_tx_device_changed failing_set_device_name sampleTxState).sender
        = sampleTxState.sender ∧
    (on_selected_tx_device_changed failing_set_device_name sampleTxState).reported_error
        = some "device unavailable" :=
  tx_device_change_atomic_c8 failing_set_device_name sampleTxState
    "device unavailable" rfl

/-- C9: `update_view` appends to the device and simulation text views
exactly the lines that are non-empty after stripping trailing whitespace;
every appended line is non-empty, and a whitespace-only line rstrips to the
empty string, hence is never added. -/
theorem nonempty_lines_c9 (s : DialogState) :
    (update_view s).ui.textEditDevices
      = s.ui.textEditDevices ++
        (s.simulator.device_messages.map rstrip).filter (fun l => !l.isEmpty) ∧
    (update_view s).ui.textEditSimulation
      = s.ui.textEditSimulation ++
        (s.simulator.log_messages.map rstrip).filter (fun l => !l.isEmpty) ∧
    (∀ l ∈ (s.simulator.device_messages.map rstrip).filter (fun l => !l.isEmpty),
        l.isEmpty = false) ∧
    (∀ l ∈ (s.simulator.log_messages.map rstrip).filter (fun l => !l.isEmpty),
        l.isEmpty = false) ∧
    (∀ m : String, m.data.all isPythonSpace = true → rstrip m = "") := by
  refine ⟨rfl, rfl, ?_, ?_, ?_⟩
  · intro l hl
    simpa using List.of_mem_filter hl
  · intro l hl
    simpa using List.of_mem_filter hl
  · intro m hm
    unfold rstrip
    have hnil : m.data.reverse.dropWhile isPythonSpace = [] := by
      rw [List.dropWhile_eq_nil_iff]
      intro x hx
      exact List.all_eq_true.mp hm x (List.mem_reverse.mp hx)
    rw [hnil]
    rfl

/-- Witness for C9: the sample state's whitespace-only device message is
dropped, its real message is appended rstripped. -/
theorem nonempty_lines_c9_witness :
    (update_view sampleDialog).ui.textEditDevices = ["dev msg"] ∧
    rstrip "  \t" = "" := by
  constructor
  · rw [(nonempty_lines_c9 sampleDialog).1]
    decide
  · exact (nonempty_lines_c9 sampleDialog).2.2.2.2 "  \t" (by decide)

/-- C10: Saving the RX capture writes exactly the prefix of the receive
device's buffer up to (excluding) `current_index`, and writes nothing when
the device data is not an ndarray or no file name was chosen. -/
theorem save_rx_prefix_c10 {α : Type} (rx : RxDevice α) (fname : Option String) :
    (rx.data = none → on_btn_save_rx_clicked rx fname = none) ∧
    (fname = none → on_btn_save_rx_clicked rx fname = none) ∧
    (∀ (arr : List α) (f : String),
        rx.data = some arr → fname = some f → f.isEmpty = false →
        on_btn_save_rx_clicked rx fname
          = some (f, arr.take rx.current_index)) := by
  refine ⟨?_, ?_, ?_⟩
  · intro h
    simp [on_btn_save_rx_clicked, h]
  · intro h
    cases hd : rx.data <;> simp [on_btn_save_rx_clicked, h, hd]
  · intro arr f h1 h2 h3
    simp [on_btn_save_rx_clicked, h1, h2, h3]

/-- A concrete receive device for the witness. -/
def sampleRxDevice : RxDevice Nat :=
  { data := some [1, 2, 3, 4], current_index := 2 }

/-- Witness for C10: with four samples and `current_index = 2`, exactly the
first two samples are written. -/
theorem save_rx_prefix_c10_witness :
    on_btn_save_rx_clicked sampleRxDevice (some "simulation_capture.complex")
      = some ("simulation_capture.complex", [1, 2]) := by
  have h := (save_rx_prefix_c10 sampleRxDevice (some "simulation_capture.complex")).2.2
    [1, 2, 3, 4] "simulation_capture.complex" rfl rfl (by decide)
  simpa using h

end SimulatorDialog
